import Mathlib

/-!
Shallow embedding of the h2go HTTP/2 proxy tunnel (repository mosajjal/h2go)
and proofs of the specification claims about it.

Bytes are modelled as natural numbers below 256, byte strings as `List Nat`,
machine integers as `Int` with explicit range checks where the Go code has
them, and I/O results (socket reads, HTTP round-trips) as explicit oracle
arguments. Every definition is translated from the Go source of the
repository; theorems at the end settle the claims.
-/

namespace H2go

/-! ### Byte-level helpers: UTF-8 encoding of Go strings

Go's `[]byte(s)` yields the UTF-8 encoding of the string; `fmt.Sprintf("%x", b)`
yields lowercase hexadecimal. -/

/-- UTF-8 encoding of a single character (1 to 4 bytes). -/
def utf8Bytes (c : Char) : List Nat :=
  let n := c.toNat
  if n < 0x80 then [n]
  else if n < 0x800 then [0xC0 + n / 0x40, 0x80 + n % 0x40]
  else if n < 0x10000 then
    [0xE0 + n / 0x1000, 0x80 + (n / 0x40) % 0x40, 0x80 + n % 0x40]
  else
    [0xF0 + n / 0x40000, 0x80 + (n / 0x1000) % 0x40,
     0x80 + (n / 0x40) % 0x40, 0x80 + n % 0x40]

/-- Go `[]byte(s)`: the UTF-8 bytes of a string. -/
def strBytes (s : String) : List Nat :=
  (s.data.map utf8Bytes).flatten

/-- Lowercase hexadecimal digit for a value below 16. -/
def hexDigit (n : Nat) : Char :=
  if n < 10 then Char.ofNat (48 + n) else Char.ofNat (87 + n)

/-- Lowercase two-digit hexadecimal of one byte, as in Go `%x` on `[]byte`. -/
def hexByte (b : Nat) : List Char :=
  [hexDigit (b / 16 % 16), hexDigit (b % 16)]

/-- Lowercase hexadecimal string of a byte slice (Go `fmt.Sprintf("%x", b)`). -/
def hexOfBytes (bs : List Nat) : String :=
  String.mk ((bs.map hexByte).flatten)

/-! ### SHA-1 (crypto/sha1) over byte lists

32-bit arithmetic is `Nat` with `% 2^32` where overflow matters. -/

/-- Big-endian bytes of a value, `n` bytes wide. -/
def beBytes (n v : Nat) : List Nat :=
  match n with
  | 0 => []
  | k + 1 => beBytes k (v / 256) ++ [v % 256]

/-- Left rotation on 32-bit values. -/
def rotl32 (x k : Nat) : Nat :=
  ((x <<< k) % 2 ^ 32) ||| (x % 2 ^ 32) >>> (32 - k)

/-- SHA-1 padding: append `0x80`, zeros to 56 mod 64, and the 64-bit
big-endian bit length. -/
def sha1pad (msg : List Nat) : List Nat :=
  msg ++ [0x80] ++ List.replicate ((119 - msg.length % 64) % 64) 0
      ++ beBytes 8 (msg.length * 8)

/-- Split a byte list into 64-byte blocks (fuel-driven structural recursion;
the fuel in `toBlocks` always suffices). -/
def toBlocksAux : Nat → List Nat → List (List Nat)
  | 0, _ => []
  | _ + 1, [] => []
  | fuel + 1, l => l.take 64 :: toBlocksAux fuel (l.drop 64)

/-- Split a byte list into 64-byte blocks. -/
def toBlocks (l : List Nat) : List (List Nat) :=
  toBlocksAux (l.length + 1) l

/-- The sixteen 32-bit big-endian words of one 64-byte block. -/
def blockWords (b : List Nat) : List Nat :=
  (List.range 16).map fun i =>
    b.getD (4 * i) 0 * 2 ^ 24 + b.getD (4 * i + 1) 0 * 2 ^ 16 +
    b.getD (4 * i + 2) 0 * 2 ^ 8 + b.getD (4 * i + 3) 0

/-- Message-schedule extension: grow the word list to 80 words. -/
def sha1extend (w : List Nat) : Nat → List Nat
  | 0 => w
  | k + 1 =>
    let w := sha1extend w k
    let i := w.length
    w ++ [rotl32 (((w.getD (i - 3) 0 ^^^ w.getD (i - 8) 0) ^^^
                   w.getD (i - 14) 0) ^^^ w.getD (i - 16) 0) 1]

/-- SHA-1 round function and constant for round `i`. -/
def sha1f (i b c d : Nat) : Nat × Nat :=
  if i < 20 then ((b &&& c) ||| ((2 ^ 32 - 1 - b % 2 ^ 32) &&& d), 0x5A827999)
  else if i < 40 then ((b ^^^ c) ^^^ d, 0x6ED9EBA1)
  else if i < 60 then ((b &&& c) ||| (b &&& d) ||| (c &&& d), 0x8F1BBCDC)
  else ((b ^^^ c) ^^^ d, 0xCA62C1D6)

/-- One SHA-1 round step on the five-word state. -/
def sha1round (st : Nat × Nat × Nat × Nat × Nat) (iw : Nat × Nat) :
    Nat × Nat × Nat × Nat × Nat :=
  let (a, b, c, d, e) := st
  let (i, w) := iw
  let (f, k) := sha1f i b c d
  let t := (rotl32 a 5 + f + e + k + w) % 2 ^ 32
  (t, a, rotl32 b 30, c, d)

/-- SHA-1 compression of one 64-byte block into the running state. -/
def sha1compress (h : Nat × Nat × Nat × Nat × Nat) (block : List Nat) :
    Nat × Nat × Nat × Nat × Nat :=
  let ws := sha1extend (blockWords block) 64
  let (h0, h1, h2, h3, h4) := h
  let (a, b, c, d, e) := ws.enum.foldl sha1round h
  ((h0 + a) % 2 ^ 32, (h1 + b) % 2 ^ 32, (h2 + c) % 2 ^ 32,
   (h3 + d) % 2 ^ 32, (h4 + e) % 2 ^ 32)

/-- SHA-1 digest (20 bytes) of a byte list. -/
def sha1 (msg : List Nat) : List Nat :=
  let init : Nat × Nat × Nat × Nat × Nat :=
    (0x67452301, 0xEFCDAB89, 0x98BADCFE, 0x10325476, 0xC3D2E1F0)
  let (h0, h1, h2, h3, h4) := (toBlocks (sha1pad msg)).foldl sha1compress init
  beBytes 4 h0 ++ beBytes 4 h1 ++ beBytes 4 h2 ++ beBytes 4 h3 ++ beBytes 4 h4

/-! ### HMAC-SHA1 (crypto/hmac) and the authenticator (auth.go) -/

/-- HMAC-SHA1 over byte lists: key longer than the 64-byte block is hashed
first, then padded with zeros; inner pad `0x36`, outer pad `0x5c`. -/
def hmacSha1 (key msg : List Nat) : List Nat :=
  let k0 := if key.length > 64 then sha1 key else key
  let k := k0 ++ List.replicate (64 - k0.length) 0
  let ipad := k.map (fun b => b ^^^ 0x36)
  let opad := k.map (fun b => b ^^^ 0x5c)
  sha1 (opad ++ sha1 (ipad ++ msg))

/-- Go `GenHMACSHA1(key, raw string) string`: HMAC-SHA1 of `raw` under `key`,
lowercase hex (source: auth file, `GenHMACSHA1`). -/
def GenHMACSHA1 (key raw : String) : String :=
  hexOfBytes (hmacSha1 (strBytes key) (strBytes raw))

/-- Go `VerifyHMACSHA1(key, raw, sign string) bool`: string equality with the
freshly generated signature (source: auth file, `VerifyHMACSHA1`). -/
def VerifyHMACSHA1 (key raw sign : String) : Bool :=
  GenHMACSHA1 key raw == sign

/-! ### Go `strconv.ParseInt(s, 10, 0)` on a 64-bit platform

Returns the parsed value and an ok flag. Mirroring Go: a syntax error
returns `(0, false)`; a range error returns the clamped extreme value and
`false`; success returns `(v, true)`. -/

/-- Decimal digits to a natural number; `none` on empty input or a
non-digit character. -/
def digitsToNat : List Char → Option Nat
  | [] => none
  | cs => cs.foldl (fun acc c =>
      match acc with
      | none => none
      | some n => if c.toNat ≥ 48 ∧ c.toNat ≤ 57 then some (n * 10 + (c.toNat - 48)) else none)
      (some 0)

/-- Go `strconv.ParseInt(s, 10, 0)` with 64-bit `int`: value and ok flag. -/
def goParseInt (s : String) : Int × Bool :=
  match s.data with
  | [] => (0, false)
  | c :: rest =>
    let (neg, ds) := if c = '-' then (true, rest)
                     else if c = '+' then (false, rest)
                     else (false, c :: rest)
    match digitsToNat ds with
    | none => (0, false)
    | some n =>
      if neg then
        if (n : Int) > 2 ^ 63 then (-(2 ^ 63), false) else (-(n : Int), true)
      else
        if (n : Int) > 2 ^ 63 - 1 then (2 ^ 63 - 1, false) else ((n : Int), true)

/-! ### Server constants and the protected-route pre-check (http.go) -/

/-- Constant `signTTL = 10` seconds. -/
def signTTL : Int := 10

/-- Constant `heartTTL = 60` seconds. -/
def heartTTL : Int := 60

/-- The signed header set carried by every protected request. -/
structure AuthHeaders where
  timestamp : String
  sign : String
  deriving DecidableEq, Repr

/-- Source `httpProxy.verify` (http.go): empty-timestamp check, `ParseInt`,
freshness `now - tm > signTTL`, then `VerifyHMACSHA1(secret, ts, sign)`. -/
def verify (secret : String) (now : Int) (h : AuthHeaders) : Except String Unit :=
  if h.timestamp = "" then .error "timestamp is empty"
  else
    let (tm, ok) := goParseInt h.timestamp
    if ¬ ok then .error "timestamp invalid"
    else if now - tm > signTTL then .error "timestamp expire"
    else if VerifyHMACSHA1 secret h.timestamp h.sign then .ok ()
    else .error "sign invalid"

/-- A simplified HTTP response: status and body bytes.
`WriteHTTPError` writes status 500, `WriteNotFoundError` status 404,
and a handler that never calls `WriteHeader` responds 200 (proto.go). -/
structure Response where
  status : Nat
  body : List Nat
  deriving DecidableEq, Repr

/-- The response written by `httpProxy.before` on a verification failure:
`WriteNotFoundError(w, "404")` (http.go). -/
def beforeFailResponse : Response :=
  ⟨404, strBytes "404"⟩

/-! ### Server tunnel registry and the protected handlers (http.go)

The registry `proxyMap` is modelled as an association list from tunnel id to
the tunnel's closed flag (the only per-tunnel state the handlers branch on);
socket reads and `io.Copy` outcomes are oracle arguments. -/

/-- Result of one `net.Conn` read: the bytes delivered and the error, where
`none` is a nil error. -/
inductive NetErr where
  | timeout
  | eof
  | other (msg : String)
  deriving DecidableEq, Repr

/-- One socket-read outcome: bytes placed in the buffer plus the error. -/
structure ReadOutcome where
  bytes : List Nat
  err : Option NetErr
  deriving DecidableEq, Repr

/-- Headers of a `/pull` request. -/
structure PullReq where
  auth : AuthHeaders
  uuid : String
  interval : String
  deriving DecidableEq, Repr

/-- Observable outcome of `httpProxy.pull`. -/
structure PullOut where
  response : Response
  /-- the handler body after the `before` check ran -/
  bodyRan : Bool
  /-- relative read deadline set on the target socket, in nanoseconds -/
  deadline : Option Int
  /-- number of reads performed on the target socket -/
  reads : Nat
  /-- whether `pc.Close()` was called -/
  closeCalled : Bool
  /-- streaming loop still running when the oracle ran out -/
  diverged : Bool
  deriving DecidableEq, Repr

/-- The close decision after the single polling read of `httpProxy.pull`:
`pc.Close()` runs exactly on a non-nil, non-timeout error (EOF included). -/
def closeOnReadErr : Option NetErr → Bool
  | none => false
  | some .timeout => false
  | some _ => true

/-- The close decision after `io.Copy` in the `TYP=data` branch of
`httpProxy.push`: close on a non-nil error other than `io.EOF`. -/
def closeOnCopyErr : Option NetErr → Bool
  | none => false
  | some .eof => false
  | some _ => true

/-- The streaming (`Interval == 0`) loop of `httpProxy.pull`: repeatedly
read from the target and write the bytes to the response until a read
error; returns (bytes written, loop returned, reads performed). -/
def pullStreamLoop : List ReadOutcome → List Nat × Bool × Nat
  | [] => ([], false, 0)
  | ro :: rest =>
    if ro.err.isSome then (ro.bytes, true, 1)
    else
      let (bs, r, k) := pullStreamLoop rest
      (ro.bytes ++ bs, r, k + 1)

/-- Source `httpProxy.pull` (http.go): `before` check, registry lookup, closed
check, then either the single deadline-bounded read (`Interval > 0`) or the
chunked streaming loop. `ro` is the single-read oracle, `stream` the
streaming-loop oracle. -/
def pullHandler (secret : String) (now : Int) (req : PullReq)
    (reg : List (String × Bool)) (ro : ReadOutcome)
    (stream : List ReadOutcome) : PullOut :=
  match verify secret now req.auth with
  | .error _ => ⟨beforeFailResponse, false, none, 0, false, false⟩
  | .ok _ =>
    match reg.lookup req.uuid with
    | none => ⟨⟨500, strBytes "uuid don't exist"⟩, true, none, 0, false, false⟩
    | some closed =>
      if closed then ⟨⟨500, strBytes "remote conn is closed"⟩, true, none, 0, false, false⟩
      else
        let ivStr := if req.interval = "" then "0" else req.interval
        let t := (goParseInt ivStr).1
        if t > 0 then
          -- pc.remote.SetReadDeadline(now+t); one read; write buf[:n];
          -- close on a non-timeout error
          ⟨⟨200, ro.bytes⟩, true, some t, 1, closeOnReadErr ro.err, false⟩
        else
          -- chunked streaming: loop until read error, then defer pc.Close()
          let (bs, ret, k) := pullStreamLoop stream
          ⟨⟨200, bs⟩, true, none, k, ret, ¬ ret⟩

/-- Headers and body of a `/push` request. -/
structure PushReq where
  auth : AuthHeaders
  uuid : String
  typ : String
  body : List Nat
  deriving DecidableEq, Repr

/-- Observable outcome of `httpProxy.push`. -/
structure PushOut where
  response : Response
  bodyRan : Bool
  /-- bytes copied to the target socket -/
  targetWritten : List Nat
  /-- whether `pc.Heart()` was signalled -/
  heart : Bool
  /-- whether `pc.Close()` was called -/
  closeCalled : Bool
  deriving DecidableEq, Repr

/-- Source `httpProxy.push` (http.go): `before` check, registry lookup, closed
check, then the `TYP` switch (`heart`, `quit`, `data`, default no-op).
`copyRes` is the `io.Copy(pc.remote, r.Body)` oracle: bytes written and
final error. -/
def pushHandler (secret : String) (now : Int) (req : PushReq)
    (reg : List (String × Bool)) (copyRes : List Nat × Option NetErr) : PushOut :=
  match verify secret now req.auth with
  | .error _ => ⟨beforeFailResponse, false, [], false, false⟩
  | .ok _ =>
    match reg.lookup req.uuid with
    | none => ⟨⟨500, strBytes "uuid don't exist"⟩, true, [], false, false⟩
    | some closed =>
      if closed then ⟨⟨500, strBytes "remote conn is closed"⟩, true, [], false, false⟩
      else
        if req.typ = "heart" then ⟨⟨200, []⟩, true, [], true, false⟩
        else if req.typ = "quit" then ⟨⟨200, []⟩, true, [], false, true⟩
        else if req.typ = "data" then
          ⟨⟨200, []⟩, true, copyRes.1, false, closeOnCopyErr copyRes.2⟩
        else ⟨⟨200, []⟩, true, [], false, false⟩

/-- Headers of a `/connect` request. -/
structure ConnectReq where
  auth : AuthHeaders
  dsthost : String
  dstport : String
  deriving DecidableEq, Repr

/-- Observable outcome of `httpProxy.connect`. -/
structure ConnectOut where
  response : Response
  bodyRan : Bool
  /-- whether the target dial was attempted -/
  dialed : Bool
  /-- the tunnel id inserted into the registry, when the dial succeeded -/
  inserted : Option String
  deriving DecidableEq, Repr

/-- Source `httpProxy.connect` (http.go): `before` check, dial
`DSTHOST:DSTPORT`, then mint a fresh id, insert it into the registry and
respond 200 with the id as the body. `dial` is the
`net.DialTimeout` oracle, `freshId` the `uuid.New().String()` oracle. -/
def connectHandler (secret : String) (now : Int) (req : ConnectReq)
    (dial : Except String Unit) (freshId : String) : ConnectOut :=
  match verify secret now req.auth with
  | .error _ => ⟨beforeFailResponse, false, false, none⟩
  | .ok _ =>
    let addr := req.dsthost ++ ":" ++ req.dstport
    match dial with
    | .error e => ⟨⟨500, strBytes ("connect " ++ addr ++ " " ++ e)⟩, true, true, none⟩
    | .ok _ => ⟨⟨200, strBytes freshId⟩, true, true, some freshId⟩

/-- Observable outcome of the reserved `/chunk_pull` and `/chunk_push`
endpoints. -/
structure ChunkOut where
  response : Response
  bodyRan : Bool
  /-- loop still running when the oracle ran out -/
  diverged : Bool
  deriving DecidableEq, Repr

/-- Source `httpProxy.chunkPull` (http.go): `before` check, then repeatedly write a
10-byte buffer until a write error. `writes` is the per-write
success oracle. -/
def chunkPullHandler (secret : String) (now : Int) (auth : AuthHeaders)
    (writes : List Bool) : ChunkOut :=
  match verify secret now auth with
  | .error _ => ⟨beforeFailResponse, false, false⟩
  | .ok _ =>
    let rec loop : List Bool → Bool
      | [] => false
      | ok :: rest => if ok then loop rest else true
    let ret := loop writes
    ⟨⟨200, []⟩, true, ¬ ret⟩

/-- Source `httpProxy.chunkPush` (http.go): `before` check, then repeatedly read
the request body until a read error. `reads` is the per-read error oracle
(`none` = nil error). -/
def chunkPushHandler (secret : String) (now : Int) (auth : AuthHeaders)
    (reads : List (Option NetErr)) : ChunkOut :=
  match verify secret now auth with
  | .error _ => ⟨beforeFailResponse, false, false⟩
  | .ok _ =>
    let rec loop : List (Option NetErr) → Bool
      | [] => false
      | e :: rest => if e.isSome then true else loop rest
    let ret := loop reads
    ⟨⟨200, []⟩, true, ¬ ret⟩

/-! ### Server tunnel lifecycle: `proxyConn.Do` and the cleanup goroutine
(proxy.go, http.go)

`connect` spawns `go func() { pc.Do(); delete(hp.proxyMap, proxyID) }()`.
`Do` has `defer pc.remote.Close()` and loops over three signals: heartbeat
(continue), close (return), `heartTTL` elapsed (return). The deferred
`remote.Close()` runs as `Do` returns, i.e. before the caller resumes and
deletes the id from the registry. We model the signal stream the loop
receives and the sequence of externally visible events. -/

/-- One wake-up of the `proxyConn.Do` select loop. -/
inductive Signal where
  | heart
  | closeSig
  | timeout
  deriving DecidableEq, Repr

/-- Externally visible cleanup events of a server tunnel. -/
inductive TunnelEvent where
  | remoteClose
  | mapDelete
  deriving DecidableEq, Repr

/-- Whether the `Do` select loop returns on the given signal stream:
`heart` continues, `closeSig` and `timeout` return; an exhausted stream
means the goroutine is still blocked in the select. -/
def doReturns : List Signal → Bool
  | [] => false
  | .heart :: rest => doReturns rest
  | .closeSig :: _ => true
  | .timeout :: _ => true

/-- The event trace of the per-tunnel cleanup goroutine
(`pc.Do()` with its deferred `pc.remote.Close()`, then
`delete(hp.proxyMap, proxyID)`). -/
def tunnelCleanupEvents (sigs : List Signal) : List TunnelEvent :=
  if doReturns sigs then [.remoteClose, .mapDelete] else []

/-! ### Client tunnel `Close` (local.go, `clientConnection.Close`) -/

/-- The `Close`-relevant state of a `clientConnection`: the mutex-guarded
`closed` flag, whether the `close` channel has been closed, how many `quit`
pushes were sent, and whether a Go panic occurred (closing a closed
channel panics). -/
structure CCState where
  closed : Bool
  chanClosed : Bool
  quitCount : Nat
  panicked : Bool
  deriving DecidableEq, Repr

/-- The state of a freshly opened client connection (`Connect` sets
`conn.close = make(chan bool)` and the zero-valued `closed` flag). -/
def ccInit : CCState := ⟨false, false, 0, false⟩

/-- Source `clientConnection.Close` (local.go): under the mutex read and set
`closed`; if it was already set return nil; otherwise `close(c.close)` and
send one best-effort `quit` push whose result `qres` (`none` = nil error)
is returned. -/
def clientConnClose (s : CCState) (qres : Option String) : CCState × Option String :=
  if s.closed then (s, none)
  else if s.chanClosed then
    -- close(c.close) on a closed channel: Go panic, quit() never runs
    ({ s with closed := true, panicked := true }, none)
  else
    (⟨true, true, s.quitCount + 1, s.panicked⟩, qres)

/-- Iterated `Close`: `n` successive calls, with `qs i` the quit-push result of
the `i`-th call. -/
def closeIter (qs : Nat → Option String) : Nat → CCState
  | 0 => ccInit
  | n + 1 => (clientConnClose (closeIter qs n) (qs n)).1

/-! ### Client tunnel `Read` (local.go, `clientConnection.Read`) -/

/-- A Go error value as seen by `Read`: `io.EOF` or some other error. -/
inductive GoErr where
  | eof
  | msg (s : String)
  deriving DecidableEq, Repr

/-- Observable outcome of `clientConnection.Read`. -/
structure ReadOut where
  n : Nat
  err : Option GoErr
  /-- whether `c.source` is non-nil after the call -/
  sourceAfter : Bool
  /-- whether `c.source.Close()` was called -/
  sourceClosed : Bool
  /-- whether `c.pull()` was attempted -/
  pulled : Bool
  deriving DecidableEq, Repr

/-- Source `clientConnection.Read` (local.go): if the source is nil, pull in
polling mode or fail in streaming mode; read from the source; on a read
error close and clear the source; in polling mode swallow `io.EOF`.
`interval` is the polling interval in nanoseconds, `sourcePresent` whether
`c.source != nil` on entry, `pullRes` the `c.pull()` oracle and `readRes`
the `c.source.Read(b)` oracle. -/
def clientConnRead (interval : Int) (sourcePresent : Bool)
    (pullRes : Except String Unit) (readRes : Nat × Option GoErr) : ReadOut :=
  let doRead (pulled : Bool) : ReadOut :=
    let (n, err) := readRes
    let errOut := if err = some .eof ∧ interval > 0 then none else err
    ⟨n, errOut, err.isNone, err.isSome, pulled⟩
  if ¬ sourcePresent then
    if interval > 0 then
      match pullRes with
      | .error e => ⟨0, some (.msg e), false, false, true⟩
      | .ok _ => doRead true
    else ⟨0, some (.msg "pull http connection is not ready"), false, false, false⟩
  else doRead false

/-! ### Frontend handler address split (handler.go, `handler.Connect`)

`handler.Connect` does `host := strings.Split(addr, ":")[0]` and
`port := strings.Split(addr, ":")[1]`. A Go slice index out of range
panics; the result is modelled as `none` in that case. The newer
`Client.Connect` guards with `len(parts) != 2`. -/

/-- Split a character list on a separator character; groups between
separators, as Go `strings.Split` with a one-character separator. -/
def splitOnChar (sep : Char) : List Char → List (List Char)
  | [] => [[]]
  | c :: rest =>
    let r := splitOnChar sep rest
    if c = sep then [] :: r
    else
      match r with
      | [] => [[c]]
      | g :: gs => (c :: g) :: gs

/-- Go `strings.Split(s, ":")`. -/
def stringsSplitColon (s : String) : List String :=
  (splitOnChar ':' s.data).map fun cs => String.mk cs

/-- The host/port extraction of `handler.Connect`
(`strings.Split(addr, ":")[0]` and `[1]`): `none` models the Go runtime
panic `index out of range` when `addr` has no `':'`. -/
def handlerConnectHostPort (addr : String) : Option (String × String) :=
  let parts := stringsSplitColon addr
  match parts.get? 0, parts.get? 1 with
  | some h, some p => some (h, p)
  | _, _ => none

/-- The guarded split of `Client.Connect`: error unless
`len(strings.Split(addr, ":")) == 2`. -/
def clientConnectHostPort (addr : String) : Except String (String × String) :=
  let parts := stringsSplitColon addr
  if h : parts.length = 2 then .ok (parts[0], parts[1])
  else .error ("invalid address format: " ++ addr)

/-! ### SOCKS5 request decoding (server.go, `LocalServer.handleConn`) -/

/-- The three distinct SOCKS5 decode errors of the request phase
(`errVer`, `errCmd`, `errAddrType` in server.go). -/
inductive SocksErr where
  | version
  | command
  | addrType
  deriving DecidableEq, Repr

/-- A decoded SOCKS5 host, keeping the raw bytes the code slices out of
the request buffer per address type. -/
inductive SocksHost where
  | ipv4 (bs : List Nat)
  | domain (bs : List Nat)
  | ipv6 (bs : List Nat)
  deriving DecidableEq, Repr

/-- The total request length computed from the address-type byte:
`typeIPv4 → net.IPv4len+6`, `typeIPv6 → net.IPv6len+6`,
`typeDm → int(buf[4])+7`. -/
def socksReqLen (buf : List Nat) : Option Nat :=
  match buf.getD 3 0 with
  | 1 => some 10
  | 4 => some 22
  | 3 => some (buf.getD 4 0 + 7)
  | _ => none

/-- The SOCKS5 request decoding of `handleConn` (server.go lines 151-190)
applied to the fully assembled request bytes: version and command checks,
address-type dispatch, host slice per type, and the big-endian port from
the last two bytes. -/
def parseSocksRequest (buf : List Nat) : Except SocksErr (SocksHost × Nat) :=
  if buf.getD 0 0 ≠ 5 then .error .version
  else if buf.getD 1 0 ≠ 1 then .error .command
  else
    match socksReqLen buf with
    | none => .error .addrType
    | some reqLen =>
      let host : SocksHost :=
        match buf.getD 3 0 with
        | 1 => .ipv4 ((buf.drop 4).take 4)
        | 4 => .ipv6 ((buf.drop 4).take 16)
        | _ => .domain ((buf.drop 5).take (buf.getD 4 0))
      let port := 256 * buf.getD (reqLen - 2) 0 + buf.getD (reqLen - 1) 0
      .ok (host, port)

/-- The reply written to the client after a successful tunnel open
(server.go line 197): `conn.Write([]byte{0x05, 0x00, 0x00, 0x01, 0x00,
0x00, 0x00, 0x00, 0x08, 0x43})`. -/
def socksSuccessReply : List Nat :=
  [0x05, 0x00, 0x00, 0x01, 0x00, 0x00, 0x00, 0x00, 0x08, 0x43]

/-- Quit-push oracle used in concrete instantiations: every push
succeeds. -/
def noQuitErr : Nat → Option String := fun _ => none

/-! ### Helper lemmas -/

/-- Lemma: `verify` succeeds when the timestamp parses, is fresh, and the sign
header is the HMAC of the timestamp. -/
theorem verify_ok (secret : String) (now tm : Int) (h : AuthHeaders)
    (hp : goParseInt h.timestamp = (tm, true))
    (hfresh : now - tm ≤ signTTL)
    (hsign : h.sign = GenHMACSHA1 secret h.timestamp) :
    verify secret now h = .ok () := by
  have hne : h.timestamp ≠ "" := by
    intro he
    rw [he, show goParseInt "" = ((0 : Int), false) from rfl] at hp
    simp at hp
  have hmac : VerifyHMACSHA1 secret h.timestamp h.sign = true := by
    rw [hsign]
    simp [VerifyHMACSHA1]
  simp [verify, hne, hp, not_lt.mpr hfresh, hmac]

/-- Any of the four authentication-failure conditions makes `verify`
return an error. -/
theorem verify_fails (secret : String) (now : Int) (auth : AuthHeaders)
    (hfail : auth.timestamp = "" ∨ (goParseInt auth.timestamp).2 = false ∨
             now - (goParseInt auth.timestamp).1 > signTTL ∨
             auth.sign ≠ GenHMACSHA1 secret auth.timestamp) :
    ∃ e, verify secret now auth = .error e := by
  by_cases h1 : auth.timestamp = ""
  · exact ⟨"timestamp is empty", by simp [verify, h1]⟩
  · rcases hpe : goParseInt auth.timestamp with ⟨tm, ok⟩
    cases ok with
    | false => exact ⟨"timestamp invalid", by simp [verify, h1, hpe]⟩
    | true =>
      by_cases h3 : now - tm > signTTL
      · exact ⟨"timestamp expire", by simp [verify, h1, hpe, h3]⟩
      · have h4 : auth.sign ≠ GenHMACSHA1 secret auth.timestamp := by
          rcases hfail with h | h | h | h
          · exact absurd h h1
          · rw [hpe] at h; simp at h
          · rw [hpe] at h; exact absurd h h3
          · exact h
        have h5 : VerifyHMACSHA1 secret auth.timestamp auth.sign = false := by
          simp only [VerifyHMACSHA1, beq_eq_false_iff_ne, ne_eq]
          exact fun hh => h4 hh.symm
        exact ⟨"sign invalid", by simp [verify, h1, hpe, h3, h5]⟩

/-! ### Claims -/

/-- C1: verifying the signature produced by signing succeeds, and any
candidate signature different from the generated one is rejected:
`VerifyHMACSHA1(secret, data, GenHMACSHA1(secret, data)) = true`, and
`VerifyHMACSHA1(secret, data, candidate) = false` whenever
`candidate ≠ GenHMACSHA1(secret, data)`. -/
theorem claim_C1 (secret data candidate : String)
    (h : candidate ≠ GenHMACSHA1 secret data) :
    VerifyHMACSHA1 secret data (GenHMACSHA1 secret data) = true ∧
    VerifyHMACSHA1 secret data candidate = false := by
  constructor
  · simp [VerifyHMACSHA1]
  · simp only [VerifyHMACSHA1, beq_eq_false_iff_ne, ne_eq]
    exact fun hh => h hh.symm

set_option maxRecDepth 100000 in
/-- C1 witness at a concrete secret, data and candidate signature. -/
theorem claim_C1_witness :
    "x" ≠ GenHMACSHA1 "k" "d" ∧
    (VerifyHMACSHA1 "k" "d" (GenHMACSHA1 "k" "d") = true ∧
     VerifyHMACSHA1 "k" "d" "x" = false) :=
  have h : "x" ≠ GenHMACSHA1 "k" "d" := by decide
  ⟨h, claim_C1 "k" "d" "x" h⟩

/-- C10: the freshness check only bounds the timestamp's age in one
direction: whenever the timestamp header parses to `tm` with
`now - tm ≤ signTTL` — including every `tm` strictly greater than `now`,
arbitrarily far in the future — and the signature is valid, `verify`
accepts the request. -/
theorem claim_C10 (secret : String) (now tm : Int) (h : AuthHeaders)
    (hp : goParseInt h.timestamp = (tm, true))
    (hfresh : now - tm ≤ signTTL)
    (hsign : h.sign = GenHMACSHA1 secret h.timestamp) :
    verify secret now h = .ok () :=
  verify_ok secret now tm h hp hfresh hsign

/-- C10 witness: a timestamp one billion seconds in the future of
`now = 0` is accepted. -/
theorem claim_C10_witness :
    verify "s" 0 ⟨"1000000000", GenHMACSHA1 "s" "1000000000"⟩ = .ok () :=
  claim_C10 "s" 0 1000000000 ⟨"1000000000", GenHMACSHA1 "s" "1000000000"⟩
    (by decide) (by decide) rfl

/-- C2: on every protected route (`/connect`, `/pull`, `/push`,
`/chunk_pull`, `/chunk_push`), if the timestamp header is empty, or does
not parse as a decimal signed integer, or is older than `signTTL`, or the
sign header differs from the HMAC-SHA1 of the timestamp, the server
responds 404 with body "404" — the same response for every failure kind —
and the route's handler body does not run. -/
theorem claim_C2 (secret : String) (now : Int) (auth : AuthHeaders)
    (uuid ivStr typ dsthost dstport : String) (body : List Nat)
    (reg : List (String × Bool)) (ro : ReadOutcome) (stream : List ReadOutcome)
    (copyRes : List Nat × Option NetErr) (dial : Except String Unit)
    (freshId : String) (wr : List Bool) (rd : List (Option NetErr))
    (hfail : auth.timestamp = "" ∨ (goParseInt auth.timestamp).2 = false ∨
             now - (goParseInt auth.timestamp).1 > signTTL ∨
             auth.sign ≠ GenHMACSHA1 secret auth.timestamp) :
    pullHandler secret now ⟨auth, uuid, ivStr⟩ reg ro stream =
      ⟨beforeFailResponse, false, none, 0, false, false⟩ ∧
    pushHandler secret now ⟨auth, uuid, typ, body⟩ reg copyRes =
      ⟨beforeFailResponse, false, [], false, false⟩ ∧
    connectHandler secret now ⟨auth, dsthost, dstport⟩ dial freshId =
      ⟨beforeFailResponse, false, false, none⟩ ∧
    chunkPullHandler secret now auth wr = ⟨beforeFailResponse, false, false⟩ ∧
    chunkPushHandler secret now auth rd = ⟨beforeFailResponse, false, false⟩ := by
  obtain ⟨e, he⟩ := verify_fails secret now auth hfail
  refine ⟨?_, ?_, ?_, ?_, ?_⟩ <;>
    simp [pullHandler, pushHandler, connectHandler, chunkPullHandler,
          chunkPushHandler, he]

/-- C2 witness: a request with an empty timestamp header gets the uniform
404 response on all five protected routes and no handler body runs. -/
theorem claim_C2_witness :
    pullHandler "s" 0 ⟨⟨"", ""⟩, "u", "0"⟩ [] ⟨[], none⟩ [] =
      ⟨beforeFailResponse, false, none, 0, false, false⟩ ∧
    pushHandler "s" 0 ⟨⟨"", ""⟩, "u", "data", []⟩ [] ([], none) =
      ⟨beforeFailResponse, false, [], false, false⟩ ∧
    connectHandler "s" 0 ⟨⟨"", ""⟩, "h", "80"⟩ (.ok ()) "id" =
      ⟨beforeFailResponse, false, false, none⟩ ∧
    chunkPullHandler "s" 0 ⟨"", ""⟩ [] = ⟨beforeFailResponse, false, false⟩ ∧
    chunkPushHandler "s" 0 ⟨"", ""⟩ [] = ⟨beforeFailResponse, false, false⟩ :=
  claim_C2 "s" 0 ⟨"", ""⟩ "u" "0" "data" "h" "80" [] [] ⟨[], none⟩ []
    ([], none) (.ok ()) "id" [] [] (Or.inl rfl)

/-- After the first `Close`, the client connection state is fixed: closed
flag set, close channel closed, exactly one quit push, no panic. -/
theorem closeIter_succ (qs : Nat → Option String) (n : Nat) :
    closeIter qs (n + 1) = ⟨true, true, 1, false⟩ := by
  induction n with
  | zero => rfl
  | succ n ih =>
    show (clientConnClose (closeIter qs (n + 1)) (qs (n + 1))).1 = _
    rw [ih]
    rfl

/-- C3: `Close` on a client tunnel is idempotent: over any number of
calls at most one quit push is sent, no call panics (the close channel is
closed at most once), and every call after the first returns a nil
error and leaves the state unchanged. -/
theorem claim_C3 (n : Nat) (qs : Nat → Option String) :
    (closeIter qs n).quitCount ≤ 1 ∧ (closeIter qs n).panicked = false ∧
    (1 ≤ n → ∀ q, clientConnClose (closeIter qs n) q = (closeIter qs n, none)) := by
  cases n with
  | zero => exact ⟨by simp [closeIter, ccInit], rfl, fun h => absurd h (by decide)⟩
  | succ n =>
    rw [closeIter_succ]
    exact ⟨by decide, rfl, fun _ q => rfl⟩

/-- C3 witness: two `Close` calls produce one quit push, no panic, and a
third call is a nil-returning no-op. -/
theorem claim_C3_witness :
    (closeIter noQuitErr 2).quitCount ≤ 1 ∧
    (closeIter noQuitErr 2).panicked = false ∧
    clientConnClose (closeIter noQuitErr 2) none = (closeIter noQuitErr 2, none) :=
  have h := claim_C3 2 noQuitErr
  ⟨h.1, h.2.1, h.2.2 (by decide) none⟩

/-- C4 counterexample: on a quit signal the cleanup trace is
`[remoteClose, mapDelete]` — `pc.Do()`'s deferred `pc.remote.Close()` runs
before the caller deletes the id from the registry — so the id is NOT
removed from the registry before the TCP connection is closed, refuting
the claimed order at this concrete input. -/
theorem claim_C4_counterexample :
    ¬ ((tunnelCleanupEvents [.closeSig]).indexOf TunnelEvent.mapDelete <
       (tunnelCleanupEvents [.closeSig]).indexOf TunnelEvent.remoteClose) := by
  decide

/-- C4 (amended): on every terminating signal stream (quit or heartbeat
timeout) the tunnel's TCP connection to the target is closed first and the
id is removed from the registry afterwards: the trace is exactly
`[remoteClose, mapDelete]`. -/
theorem claim_C4_amended (sigs : List Signal) (h : doReturns sigs = true) :
    tunnelCleanupEvents sigs = [.remoteClose, .mapDelete] ∧
    (tunnelCleanupEvents sigs).indexOf TunnelEvent.remoteClose <
      (tunnelCleanupEvents sigs).indexOf TunnelEvent.mapDelete := by
  have ht : tunnelCleanupEvents sigs = [.remoteClose, .mapDelete] := by
    simp [tunnelCleanupEvents, h]
  exact ⟨ht, by rw [ht]; decide⟩

/-- C4 witness: the amended order at the concrete quit-signal stream. -/
theorem claim_C4_witness :
    doReturns [Signal.closeSig] = true ∧
    (tunnelCleanupEvents [Signal.closeSig] = [.remoteClose, .mapDelete] ∧
     (tunnelCleanupEvents [Signal.closeSig]).indexOf TunnelEvent.remoteClose <
       (tunnelCleanupEvents [Signal.closeSig]).indexOf TunnelEvent.mapDelete) :=
  have h : doReturns [Signal.closeSig] = true := by decide
  ⟨h, claim_C4_amended [Signal.closeSig] h⟩

/-- C5: at the failing input `"localhost"` (an address with no `':'`),
`handler.Connect`'s index access `strings.Split(addr, ":")[1]` is out of
range — a Go runtime panic, modelled as `none` — while the guarded
`Client.Connect` split returns an error value as the claim demands. -/
theorem claim_C5_bug :
    handlerConnectHostPort "localhost" = none ∧
    stringsSplitColon "localhost" = ["localhost"] ∧
    clientConnectHostPort "localhost" =
      .error "invalid address format: localhost" :=
  ⟨by decide, by decide, rfl⟩

/-- C6: the client tunnel `Read`: with a nil source in streaming mode it
returns `(0, "pull http connection is not ready")`; whenever the source
read returns an error the source is closed and cleared; in polling mode an
`io.EOF` from the source is swallowed to nil, in streaming mode it is
returned verbatim. -/
theorem claim_C6 (interval : Int) (sourcePresent : Bool)
    (pullRes : Except String Unit) (readRes : Nat × Option GoErr) :
    (interval = 0 → sourcePresent = false →
      clientConnRead interval sourcePresent pullRes readRes =
        ⟨0, some (.msg "pull http connection is not ready"), false, false, false⟩) ∧
    ((sourcePresent = true ∨ (interval > 0 ∧ pullRes = .ok ())) →
      readRes.2.isSome = true →
      (clientConnRead interval sourcePresent pullRes readRes).sourceClosed = true ∧
      (clientConnRead interval sourcePresent pullRes readRes).sourceAfter = false) ∧
    (interval > 0 → (sourcePresent = true ∨ pullRes = .ok ()) →
      readRes.2 = some .eof →
      (clientConnRead interval sourcePresent pullRes readRes).err = none) ∧
    (interval = 0 → sourcePresent = true → readRes.2 = some .eof →
      (clientConnRead interval sourcePresent pullRes readRes).err = some .eof) := by
  obtain ⟨n, err⟩ := readRes
  refine ⟨?_, ?_, ?_, ?_⟩
  · intro h0 hs
    subst h0; subst hs
    simp [clientConnRead]
  · intro hs he
    rcases hs with hs | ⟨hi, hp⟩
    · subst hs
      cases err with
      | none => simp at he
      | some e => simp [clientConnRead]
    · subst hp
      cases err with
      | none => simp at he
      | some e =>
        cases sourcePresent <;> simp [clientConnRead, hi]
  · intro hi hs he
    simp only at he
    subst he
    rcases hs with hs | hp
    · subst hs
      simp [clientConnRead, hi]
    · subst hp
      cases sourcePresent <;> simp [clientConnRead, hi]
  · intro h0 hs he
    subst h0; subst hs
    simp only at he
    subst he
    simp [clientConnRead]

/-- C6 witness: streaming mode with a nil source returns the not-ready
error. -/
theorem claim_C6_witness :
    clientConnRead 0 false (.ok ()) (0, some .eof) =
      ⟨0, some (.msg "pull http connection is not ready"), false, false, false⟩ :=
  (claim_C6 0 false (.ok ()) (0, some .eof)).1 rfl rfl

/-- C7: an authenticated `/pull` with `Interval = t > 0` on a live tunnel
sets a read deadline of `t` nanoseconds on the target socket, performs
exactly one read into the 8 KiB pool buffer, writes the bytes read
(possibly zero) with implicit status 200, and returns; a timeout read
error yields an empty 200 and does not close the tunnel; any non-timeout
read error closes the tunnel. -/
theorem claim_C7 (secret : String) (now : Int) (req : PullReq)
    (reg : List (String × Bool)) (ro : ReadOutcome) (stream : List ReadOutcome)
    (t : Int)
    (hv : verify secret now req.auth = .ok ())
    (hreg : reg.lookup req.uuid = some false)
    (ht : (goParseInt (if req.interval = "" then "0" else req.interval)).1 = t)
    (htpos : t > 0)
    (hlen : ro.bytes.length ≤ 8192)
    (htmo : ro.err = some .timeout → ro.bytes = []) :
    pullHandler secret now req reg ro stream =
      ⟨⟨200, ro.bytes⟩, true, some t, 1, closeOnReadErr ro.err, false⟩ ∧
    (pullHandler secret now req reg ro stream).response.body.length ≤ 8192 ∧
    (ro.err = some .timeout →
      pullHandler secret now req reg ro stream =
        ⟨⟨200, []⟩, true, some t, 1, false, false⟩) ∧
    (∀ e, ro.err = some e → e ≠ .timeout →
      (pullHandler secret now req reg ro stream).closeCalled = true) := by
  have hout : pullHandler secret now req reg ro stream =
      ⟨⟨200, ro.bytes⟩, true, some t, 1, closeOnReadErr ro.err, false⟩ := by
    simp [pullHandler, hv, hreg, ht, htpos]
  refine ⟨hout, by rw [hout]; exact hlen, ?_, ?_⟩
  · intro htm
    rw [hout, htmo htm, htm]
    rfl
  · intro e he hne
    rw [hout]
    cases e with
    | timeout => exact absurd rfl hne
    | eof => simp [he, closeOnReadErr]
    | other s => simp [he, closeOnReadErr]

/-- C7 witness: a concrete polling pull that reads one byte with no error,
and size bound discharged. -/
theorem claim_C7_witness :
    pullHandler "s" 0 ⟨⟨"0", GenHMACSHA1 "s" "0"⟩, "u", "5"⟩ [("u", false)]
        ⟨[7], none⟩ [] =
      ⟨⟨200, [7]⟩, true, some 5, 1, closeOnReadErr none, false⟩ :=
  (claim_C7 "s" 0 ⟨⟨"0", GenHMACSHA1 "s" "0"⟩, "u", "5"⟩ [("u", false)]
      ⟨[7], none⟩ [] 5
      (verify_ok "s" 0 0 ⟨"0", GenHMACSHA1 "s" "0"⟩ (by decide) (by decide) rfl)
      (by decide) (by decide) (by decide) (by decide)
      (fun h => absurd h (by simp))).1

/-- C8: an authenticated `/pull` or `/push` whose UUID is not a key of the
registry yields 500 with body exactly "uuid don't exist"; a present id
whose tunnel is flagged closed yields 500 with body exactly
"remote conn is closed"; in all four cases no target-socket reads or
writes occur. -/
theorem claim_C8 (secret : String) (now : Int) (preq : PullReq)
    (sreq : PushReq) (reg : List (String × Bool)) (ro : ReadOutcome)
    (stream : List ReadOutcome) (copyRes : List Nat × Option NetErr)
    (hv1 : verify secret now preq.auth = .ok ())
    (hv2 : verify secret now sreq.auth = .ok ()) :
    (reg.lookup preq.uuid = none →
      pullHandler secret now preq reg ro stream =
        ⟨⟨500, strBytes "uuid don't exist"⟩, true, none, 0, false, false⟩) ∧
    (reg.lookup preq.uuid = some true →
      pullHandler secret now preq reg ro stream =
        ⟨⟨500, strBytes "remote conn is closed"⟩, true, none, 0, false, false⟩) ∧
    (reg.lookup sreq.uuid = none →
      pushHandler secret now sreq reg copyRes =
        ⟨⟨500, strBytes "uuid don't exist"⟩, true, [], false, false⟩) ∧
    (reg.lookup sreq.uuid = some true →
      pushHandler secret now sreq reg copyRes =
        ⟨⟨500, strBytes "remote conn is closed"⟩, true, [], false, false⟩) := by
  refine ⟨?_, ?_, ?_, ?_⟩ <;> intro hl <;>
    simp [pullHandler, pushHandler, hv1, hv2, hl]

/-- C8 witness: an authenticated pull and push on an empty registry yield
the "uuid don't exist" responses with no target I/O. -/
theorem claim_C8_witness :
    pullHandler "s" 0 ⟨⟨"0", GenHMACSHA1 "s" "0"⟩, "u", "0"⟩ [] ⟨[], none⟩ [] =
      ⟨⟨500, strBytes "uuid don't exist"⟩, true, none, 0, false, false⟩ ∧
    pushHandler "s" 0 ⟨⟨"0", GenHMACSHA1 "s" "0"⟩, "u", "data", [1]⟩ []
        ([1], none) =
      ⟨⟨500, strBytes "uuid don't exist"⟩, true, [], false, false⟩ :=
  have h := claim_C8 "s" 0 ⟨⟨"0", GenHMACSHA1 "s" "0"⟩, "u", "0"⟩
    ⟨⟨"0", GenHMACSHA1 "s" "0"⟩, "u", "data", [1]⟩ [] ⟨[], none⟩ [] ([1], none)
    (verify_ok "s" 0 0 ⟨"0", GenHMACSHA1 "s" "0"⟩ (by decide) (by decide) rfl)
    (verify_ok "s" 0 0 ⟨"0", GenHMACSHA1 "s" "0"⟩ (by decide) (by decide) rfl)
  ⟨h.1 rfl, h.2.2.1 rfl⟩

/-- C9: the SOCKS5 request decoder: a version byte other than 5 yields the
version error, a command other than 1 the command error, an address type
outside {1, 3, 4} the address-type error (three distinct values); for a
well-formed request the host bytes are sliced per address type and the port
is the big-endian 16-bit integer of the last two request bytes; the reply
on a successful open is exactly 05 00 00 01 00 00 00 00 08 43. -/
theorem claim_C9 (buf : List Nat) :
    (buf.getD 0 0 ≠ 5 → parseSocksRequest buf = .error .version) ∧
    (buf.getD 0 0 = 5 → buf.getD 1 0 ≠ 1 →
      parseSocksRequest buf = .error .command) ∧
    (buf.getD 0 0 = 5 → buf.getD 1 0 = 1 → buf.getD 3 0 ≠ 1 →
      buf.getD 3 0 ≠ 3 → buf.getD 3 0 ≠ 4 →
      parseSocksRequest buf = .error .addrType) ∧
    (SocksErr.version ≠ SocksErr.command ∧ SocksErr.version ≠ SocksErr.addrType ∧
      SocksErr.command ≠ SocksErr.addrType) ∧
    (buf.getD 0 0 = 5 → buf.getD 1 0 = 1 → buf.getD 3 0 = 1 →
      parseSocksRequest buf =
        .ok (.ipv4 ((buf.drop 4).take 4), 256 * buf.getD 8 0 + buf.getD 9 0)) ∧
    (buf.getD 0 0 = 5 → buf.getD 1 0 = 1 → buf.getD 3 0 = 3 →
      parseSocksRequest buf =
        .ok (.domain ((buf.drop 5).take (buf.getD 4 0)),
             256 * buf.getD (buf.getD 4 0 + 5) 0 + buf.getD (buf.getD 4 0 + 6) 0)) ∧
    (buf.getD 0 0 = 5 → buf.getD 1 0 = 1 → buf.getD 3 0 = 4 →
      parseSocksRequest buf =
        .ok (.ipv6 ((buf.drop 4).take 16), 256 * buf.getD 20 0 + buf.getD 21 0)) ∧
    socksSuccessReply = [0x05, 0x00, 0x00, 0x01, 0x00, 0x00, 0x00, 0x00, 0x08, 0x43] := by
  refine ⟨?_, ?_, ?_, by decide, ?_, ?_, ?_, rfl⟩
  · intro h
    unfold parseSocksRequest
    rw [if_pos h]
  · intro h0 h1
    unfold parseSocksRequest
    rw [if_neg (not_not_intro h0), if_pos h1]
  · intro h0 h1 ha hb hc
    have hnone : socksReqLen buf = none := by
      unfold socksReqLen
      split
      · exact absurd (by assumption) ha
      · exact absurd (by assumption) hc
      · exact absurd (by assumption) hb
      · rfl
    unfold parseSocksRequest
    rw [if_neg (not_not_intro h0), if_neg (not_not_intro h1), hnone]
  · intro h0 h1 h3
    unfold parseSocksRequest socksReqLen
    rw [if_neg (not_not_intro h0), if_neg (not_not_intro h1), h3]
  · intro h0 h1 h3
    unfold parseSocksRequest socksReqLen
    rw [if_neg (not_not_intro h0), if_neg (not_not_intro h1), h3]
    rfl
  · intro h0 h1 h3
    unfold parseSocksRequest socksReqLen
    rw [if_neg (not_not_intro h0), if_neg (not_not_intro h1), h3]

/-- C9 witness: concrete requests — an IPv4 CONNECT to 10.0.0.1:8080 and
the three error kinds at concrete malformed requests. -/
theorem claim_C9_witness :
    parseSocksRequest [5, 1, 0, 1, 10, 0, 0, 1, 31, 144] =
      .ok (.ipv4 [10, 0, 0, 1], 8080) ∧
    parseSocksRequest [4, 1, 0, 1, 0, 0, 0, 0, 0, 0] = .error .version ∧
    parseSocksRequest [5, 2, 0, 1, 0, 0, 0, 0, 0, 0] = .error .command ∧
    parseSocksRequest [5, 1, 0, 2, 0, 0, 0, 0, 0, 0] = .error .addrType := by
  refine ⟨?_, ?_, ?_, ?_⟩
  · have h := (claim_C9 [5, 1, 0, 1, 10, 0, 0, 1, 31, 144]).2.2.2.2.1
      (by decide) (by decide) (by decide)
    simpa using h
  · exact (claim_C9 [4, 1, 0, 1, 0, 0, 0, 0, 0, 0]).1 (by decide)
  · exact (claim_C9 [5, 2, 0, 1, 0, 0, 0, 0, 0, 0]).2.1 (by decide) (by decide)
  · exact (claim_C9 [5, 1, 0, 2, 0, 0, 0, 0, 0, 0]).2.2.1 (by decide) (by decide)
      (by decide) (by decide) (by decide)

end H2go
